import Mathlib

/-!
Formal model of the seat-booking core of the show-sparkle-booking repository.

The repository's booking logic lives in PL/pgSQL functions in the Supabase
migrations.  This file shallowly embeds those functions over explicit list-based
table states:

* `seat_reservations` / `reserve_seats` / `cleanup_expired_reservations` /
  `complete_booking` / `cancel_booking` from migration
  `20251224140227_ba328cac-608a-46c3-b1e3-ca8953e6e826.sql`;
* `booking_seats` with its `UNIQUE (show_id, seat_id)` constraint from migration
  `20251223140849_33d94ec8-aa7c-4e97-a8a9-620cb3d242d5.sql`;
* `complete_app_booking` / `get_app_booked_seat_ids` from the unnamed migration
  "Multi-user seat availability + atomic booking for app_bookings";
* `complete_guest_booking` / `lookup_booking_by_reference` from migration
  `20251225125357_ab0c398c-5fa6-4c5a-9ed9-329e2ebe050c.sql`;
* `cancel_app_booking` from migration
  `20251224162224_28cd8ff9-85cb-461b-9957-f696b5be85b7.sql` (the current,
  flat-50% version; it replaced the time-window version of the unnamed
  migration that created `app_bookings`);
* `generate_booking_reference` from migration
  `20251223140901_c1ddfedb-9863-483b-87bd-03e82414fac3.sql`.

Conventions of the embedding:

* UUIDs are `Nat`; timestamps and SQL NUMERIC values are `ℚ` (timestamps in
  seconds, so `interval '10 minutes'` is `600` and an hour is `3600`).
* SQL text is `String`; reference codes are modelled as their lists of
  character codes (`List Nat`) so that `upper`/`lower` are explicit maps.
* Nullable columns are `Option`; SQL `=` on nullable values is `sqlEqU`
  (`NULL = x` is not true, matching SQL three-valued logic).
* Each PL/pgSQL function becomes a pure function from the database state (and
  its arguments, plus `now` where the source consults `now()`) to a result and
  a new state.  A `RAISE EXCEPTION` or an uncaught constraint violation aborts
  the surrounding transaction, leaving the state unchanged; such outcomes are
  `Except.error`/`none`.  Values produced non-deterministically by the database
  (`gen_random_uuid()`, `generate_booking_reference()`) are passed as explicit
  `new_id`/`new_ref` arguments, and the uniqueness constraints they may violate
  are checked explicitly.
* The advisory lock taken by the booking functions serialises operations per
  show; accordingly operations are modelled as atomic state transitions and
  interleavings are sequences of transitions (the `Step` relation).
-/

namespace ShowSparkle

/-- SQL equality on nullable values: `NULL = x` is never true. -/
def sqlEqU : Option Nat → Option Nat → Bool
  | some a, some b => a == b
  | _, _ => false

/-- Character-code upper-casing, as PostgreSQL `upper` acts on ASCII text
(reference codes are ASCII: prefix, digits, hyphen, hex). -/
def upperChar (c : Nat) : Nat := if 97 ≤ c ∧ c ≤ 122 then c - 32 else c

/-- Character-code lower-casing (client-side `toLowerCase` on ASCII text). -/
def lowerChar (c : Nat) : Nat := if 65 ≤ c ∧ c ≤ 90 then c + 32 else c

/-- `upper` on a text value represented by its character codes. -/
def sqlUpper (s : List Nat) : List Nat := s.map upperChar

/-- `lower` on a text value represented by its character codes. -/
def sqlLower (s : List Nat) : List Nat := s.map lowerChar

/-- `generate_booking_reference`:
`'BK' || to_char(now(), 'YYYYMMDD') || '-' || upper(substr(md5(random()::text), 1, 6))`.
The date rendering and the md5 randomness are passed in as character-code
lists; `66, 75, 45` are the codes of `'B'`, `'K'`, `'-'`. -/
def generate_booking_reference (datePart rand : List Nat) : List Nat :=
  66 :: 75 :: datePart ++ [45] ++ sqlUpper (rand.take 6)

/-- A row of `shows` (the columns the booking core reads).  `show_datetime`
stands for the timestamp denoted by `show_date || ' ' || show_time`. -/
structure ShowRow where
  id : Nat
  base_price : ℚ
  show_datetime : ℚ
deriving DecidableEq, Repr

/-- A row of `seats` (the columns the booking core reads). -/
structure SeatRow where
  id : Nat
  price_multiplier : ℚ
deriving DecidableEq, Repr

/-- A row of `profiles` (the columns the lookup reads). -/
structure Profile where
  user_id : Nat
  full_name : String
deriving DecidableEq, Repr

/-- A row of `bookings`. -/
structure Booking where
  id : Nat
  user_id : Option Nat
  show_id : Nat
  booking_reference : List Nat
  total_amount : ℚ
  status : String
  cancelled_at : Option ℚ
  refund_amount : ℚ
deriving DecidableEq, Repr

/-- A row of `booking_seats`; the table carries `UNIQUE (show_id, seat_id)`. -/
structure BookingSeat where
  booking_id : Nat
  seat_id : Nat
  show_id : Nat
  price : ℚ
deriving DecidableEq, Repr

/-- A row of `seat_reservations`; the table carries `UNIQUE (show_id, seat_id)`
and `user_id` is nullable. -/
structure SeatReservation where
  show_id : Nat
  seat_id : Nat
  user_id : Option Nat
  reserved_at : ℚ
  expires_at : ℚ
deriving DecidableEq, Repr

/-- A row of `app_bookings`.  `seats` is a jsonb array of seat objects of which
only the `'id'` string is ever consulted, so it is modelled as the list of
those ids. -/
structure AppBooking where
  id : Nat
  user_id : Option Nat
  tmdb_movie_id : String
  movie_title : String
  movie_poster_url : Option String
  theater_name : String
  theater_location : Option String
  screen_name : String
  show_date : Int
  show_time : Int
  seats : List String
  total_amount : ℚ
  booking_reference : List Nat
  status : String
  cancelled_at : Option ℚ
  refund_amount : ℚ
  created_at : ℚ
  updated_at : ℚ
  is_guest_booking : Bool
  guest_name : Option String
  guest_email : Option String
  guest_phone : Option String
deriving DecidableEq, Repr

/-- The database state: the mutable tables of the booking core together with
the catalog tables it reads. -/
structure DB where
  shows : List ShowRow
  seats : List SeatRow
  profiles : List Profile
  bookings : List Booking
  booking_seats : List BookingSeat
  seat_reservations : List SeatReservation
  app_bookings : List AppBooking
deriving DecidableEq, Repr

/-- Result row of `reserve_seats`. -/
structure ReserveResult where
  success : Bool
  message : String
deriving DecidableEq, Repr

/-- Result row of `cancel_booking` / `cancel_app_booking`. -/
structure CancelResult where
  success : Bool
  message : String
  refund_amount : ℚ
deriving DecidableEq, Repr

/-- `cleanup_expired_reservations`: `DELETE FROM seat_reservations WHERE
expires_at < now()`. -/
def cleanup_expired_reservations (db : DB) (now : ℚ) : DB :=
  { db with seat_reservations :=
      db.seat_reservations.filter (fun r => !decide (r.expires_at < now)) }

/-- Would inserting `newRows` into `seat_reservations` violate its
`UNIQUE (show_id, seat_id)` constraint?  (Against the existing rows, or among
the new rows themselves.) -/
def srInsertConflict (existing : List SeatReservation) (show_id : Nat)
    (seat_ids : List Nat) : Bool :=
  !decide seat_ids.Nodup ||
    seat_ids.any (fun s =>
      existing.any (fun r => r.show_id == show_id && r.seat_id == s))

/-- `reserve_seats(_show_id, _seat_ids, _user_id)`: sweep expired holds, delete
the caller's own holds for the show, fail if any requested seat is booked or
actively held, otherwise insert one hold per seat expiring in 10 minutes.
`none` models an aborted transaction (a `UNIQUE (show_id, seat_id)` violation
on insert, possible only for a lingering row with `expires_at = now()`
exactly, which the sweep keeps and the conflict check ignores). -/
def reserve_seats (db : DB) (_show_id : Nat) (_seat_ids : List Nat)
    (_user_id : Option Nat) (now : ℚ) : Option (ReserveResult × DB) :=
  let db1 := cleanup_expired_reservations db now
  let db2 := { db1 with seat_reservations :=
      (db1.seat_reservations.filter
        (fun r => !(r.show_id == _show_id && sqlEqU r.user_id _user_id))) }
  let unavailable := _seat_ids.any (fun s =>
    db2.booking_seats.any (fun bs => bs.show_id == _show_id && bs.seat_id == s) ||
    db2.seat_reservations.any (fun r =>
      r.show_id == _show_id && r.seat_id == s && decide (now < r.expires_at)))
  if unavailable then
    some (⟨false, "Some seats are no longer available"⟩, db2)
  else if srInsertConflict db2.seat_reservations _show_id _seat_ids then
    none
  else
    some (⟨true, "Seats reserved successfully"⟩,
      { db2 with seat_reservations := db2.seat_reservations ++
          _seat_ids.map (fun s =>
            ⟨_show_id, s, _user_id, now, now + 600⟩) })

/-- Do the rows of `l` themselves contain two rows with the same
`(show_id, seat_id)` pair? -/
def bsHasDup : List BookingSeat → Bool
  | [] => false
  | r :: l =>
      l.any (fun e => e.show_id == r.show_id && e.seat_id == r.seat_id) ||
        bsHasDup l

/-- Would inserting `newRows` into `booking_seats` violate its
`UNIQUE (show_id, seat_id)` constraint? -/
def bsInsertConflict (existing newRows : List BookingSeat) : Bool :=
  newRows.any (fun r =>
      existing.any (fun e => e.show_id == r.show_id && e.seat_id == r.seat_id)) ||
    bsHasDup newRows

/-- `complete_booking(_show_id, _seat_ids, _user_id, _total_amount, ...)`:
insert a confirmed booking, insert its `booking_seats` line items priced from
`shows.base_price * seats.price_multiplier`, and delete the caller's
reservations for the show.  It performs no availability check of its own;
`none` models the transaction aborting (missing show making the `price`
NOT NULL, or a violated uniqueness constraint on `bookings.id`,
`bookings.booking_reference` or `booking_seats (show_id, seat_id)`). -/
def complete_booking (db : DB) (_show_id : Nat) (_seat_ids : List Nat)
    (_user_id : Option Nat) (_total_amount : ℚ) (new_id : Nat)
    (new_ref : List Nat) : Option ((Nat × List Nat) × DB) :=
  match db.shows.find? (fun s => s.id == _show_id) with
  | none => none
  | some sh =>
    if db.bookings.any (fun b => b.id == new_id || b.booking_reference == new_ref) then
      none
    else
      let newSeats := (db.seats.filter (fun s => decide (s.id ∈ _seat_ids))).map
        (fun s => BookingSeat.mk new_id s.id _show_id (sh.base_price * s.price_multiplier))
      if bsInsertConflict db.booking_seats newSeats then none
      else
        some ((new_id, new_ref),
          { db with
            bookings := db.bookings ++
              [⟨new_id, _user_id, _show_id, new_ref, _total_amount, "confirmed", none, 0⟩],
            booking_seats := db.booking_seats ++ newSeats,
            seat_reservations := db.seat_reservations.filter
              (fun r => !(r.show_id == _show_id && sqlEqU r.user_id _user_id)) })

/-- The time-window refund policy of `cancel_booking`: full refund when
`hours_until_show >= 24`, nothing otherwise. -/
def timeWindowRefund (total_amount hours_until_show : ℚ) : ℚ :=
  if 24 ≤ hours_until_show then total_amount else 0

/-- The row predicate of `cancel_booking`'s lookup:
`FROM bookings b JOIN shows s ON s.id = b.show_id
WHERE b.id = _booking_id AND b.user_id = _user_id`. -/
def cancelBookingPred (db : DB) (_booking_id : Nat) (_user_id : Option Nat)
    (b : Booking) : Bool :=
  b.id == _booking_id && sqlEqU b.user_id _user_id &&
    db.shows.any (fun s => s.id == b.show_id)

/-- `cancel_booking(_booking_id, _user_id)`: guarded cancellation with the
time-window refund; on success the booking row is updated and its
`booking_seats` rows are deleted. -/
def cancel_booking (db : DB) (_booking_id : Nat) (_user_id : Option Nat)
    (now : ℚ) : CancelResult × DB :=
  match db.bookings.find? (cancelBookingPred db _booking_id _user_id) with
  | none => (⟨false, "Booking not found", 0⟩, db)
  | some b =>
    if b.status == "cancelled" then
      (⟨false, "Booking already cancelled", 0⟩, db)
    else
      match db.shows.find? (fun s => s.id == b.show_id) with
      | none => (⟨false, "Booking not found", 0⟩, db)
      | some sh =>
        let hours_until_show := (sh.show_datetime - now) / 3600
        let calculated_refund := timeWindowRefund b.total_amount hours_until_show
        (⟨true,
          if 0 < calculated_refund then
            "Booking cancelled. Full refund will be processed."
          else
            "Booking cancelled. No refund available (less than 24 hours before show).",
          calculated_refund⟩,
         { db with
           bookings := db.bookings.map (fun x =>
             if x.id == _booking_id then
               { x with status := "cancelled", cancelled_at := some now,
                        refund_amount := calculated_refund }
             else x),
           booking_seats := db.booking_seats.filter
             (fun r => !(r.booking_id == _booking_id)) })

/-- The conflict check shared by `complete_app_booking` and
`complete_guest_booking`: is any requested seat id already among the seats of a
non-cancelled `app_bookings` row for the same show? -/
def appConflict (l : List AppBooking) (_tmdb_movie_id _theater_name : String)
    (_show_date _show_time : Int) (v_seat_ids : List String) : Bool :=
  l.any (fun ab =>
    ab.tmdb_movie_id == _tmdb_movie_id && ab.theater_name == _theater_name &&
    ab.show_date == _show_date && ab.show_time == _show_time &&
    ab.status != "cancelled" &&
    ab.seats.any (fun s => decide (s ∈ v_seat_ids)))

/-- `complete_app_booking(...)`: authenticated finalize on `app_bookings`.
Under the per-show advisory lock it rejects when a requested seat belongs to a
non-cancelled booking of the same show, otherwise inserts a confirmed booking
owned by the caller. -/
def complete_app_booking (db : DB) (auth_uid : Option Nat)
    (_tmdb_movie_id _movie_title : String) (_movie_poster_url : Option String)
    (_theater_name : String) (_theater_location : Option String)
    (_screen_name : String) (_show_date _show_time : Int)
    (_seats : List String) (_total_amount : ℚ)
    (new_id : Nat) (new_ref : List Nat) (now : ℚ) :
    Except String ((Nat × List Nat) × DB) :=
  match auth_uid with
  | none => .error "not_authenticated"
  | some v_user_id =>
    if _seats.isEmpty then .error "no_seats_selected"
    else if appConflict db.app_bookings _tmdb_movie_id _theater_name
        _show_date _show_time _seats then
      .error "seats_unavailable"
    else if db.app_bookings.any (fun ab =>
        ab.id == new_id || ab.booking_reference == new_ref) then
      .error "unique_violation"
    else
      .ok ((new_id, new_ref),
        { db with app_bookings := db.app_bookings ++
            [⟨new_id, some v_user_id, _tmdb_movie_id, _movie_title,
              _movie_poster_url, _theater_name, _theater_location, _screen_name,
              _show_date, _show_time, _seats, _total_amount, new_ref,
              "confirmed", none, 0, now, now, false, none, none, none⟩] })

/-- `IF x IS NULL OR trim(x) = ''` on a nullable text argument. -/
def sqlBlank : Option String → Bool
  | none => true
  | some s => s.trim == ""

/-- `complete_guest_booking(...)`: guest finalize on `app_bookings`.  Validates
guest contact fields, performs the same locked conflict check, and inserts a
confirmed guest booking with `user_id = NULL`. -/
def complete_guest_booking (db : DB)
    (_tmdb_movie_id _movie_title : String) (_movie_poster_url : Option String)
    (_theater_name : String) (_theater_location : Option String)
    (_screen_name : String) (_show_date _show_time : Int)
    (_seats : List String) (_total_amount : ℚ)
    (_guest_name _guest_email _guest_phone : Option String)
    (new_id : Nat) (new_ref : List Nat) (now : ℚ) :
    Except String ((Nat × List Nat) × DB) :=
  if _seats.isEmpty then .error "no_seats_selected"
  else if sqlBlank _guest_name then .error "guest_name_required"
  else if sqlBlank _guest_email then .error "guest_email_required"
  else if appConflict db.app_bookings _tmdb_movie_id _theater_name
      _show_date _show_time _seats then
    .error "seats_unavailable"
  else if db.app_bookings.any (fun ab =>
      ab.id == new_id || ab.booking_reference == new_ref) then
    .error "unique_violation"
  else
    .ok ((new_id, new_ref),
      { db with app_bookings := db.app_bookings ++
          [⟨new_id, none, _tmdb_movie_id, _movie_title, _movie_poster_url,
            _theater_name, _theater_location, _screen_name, _show_date,
            _show_time, _seats, _total_amount, new_ref, "confirmed", none, 0,
            now, now, true, _guest_name, _guest_email, _guest_phone⟩] })

/-- The row predicate of `cancel_app_booking`'s lookup:
`WHERE id = _booking_id AND user_id = _user_id`. -/
def cancelAppPred (_booking_id : Nat) (_user_id : Option Nat)
    (b : AppBooking) : Bool :=
  b.id == _booking_id && sqlEqU b.user_id _user_id

/-- `cancel_app_booking(_booking_id, _user_id)` (current version): guarded
cancellation of an `app_bookings` row with a flat 50% refund. -/
def cancel_app_booking (db : DB) (_booking_id : Nat) (_user_id : Option Nat)
    (now : ℚ) : CancelResult × DB :=
  match db.app_bookings.find? (cancelAppPred _booking_id _user_id) with
  | none => (⟨false, "Booking not found", 0⟩, db)
  | some b =>
    if b.status == "cancelled" then
      (⟨false, "Booking already cancelled", 0⟩, db)
    else
      let calculated_refund := b.total_amount * (1 / 2)
      (⟨true,
        "Booking cancelled. 50% refund (PKR " ++ toString calculated_refund ++
          ") will be processed. Cancellation fee: PKR " ++
          toString (b.total_amount - calculated_refund),
        calculated_refund⟩,
       { db with app_bookings := db.app_bookings.map (fun x =>
           if x.id == _booking_id then
             { x with status := "cancelled", cancelled_at := some now,
                      refund_amount := calculated_refund, updated_at := now }
           else x) })

/-- The read-only projection returned by `lookup_booking_by_reference`. -/
structure BookingView where
  id : Nat
  booking_reference : List Nat
  movie_title : String
  movie_poster_url : Option String
  theater_name : String
  theater_location : Option String
  screen_name : String
  show_date : Int
  show_time : Int
  seats : List String
  total_amount : ℚ
  status : String
  created_at : ℚ
  cancelled_at : Option ℚ
  refund_amount : ℚ
  customer_name : Option String
deriving DecidableEq, Repr

/-- `lookup_booking_by_reference(_booking_reference)`: select the
`app_bookings` rows whose reference equals `upper(_booking_reference)`, left
joined with `profiles`; `customer_name` is
`COALESCE(ab.guest_name, p.full_name)`. -/
def lookup_booking_by_reference (db : DB) (_booking_reference : List Nat) :
    List BookingView :=
  (db.app_bookings.filter
      (fun ab => ab.booking_reference == sqlUpper _booking_reference)).map
    (fun ab =>
      ⟨ab.id, ab.booking_reference, ab.movie_title, ab.movie_poster_url,
       ab.theater_name, ab.theater_location, ab.screen_name, ab.show_date,
       ab.show_time, ab.seats, ab.total_amount, ab.status, ab.created_at,
       ab.cancelled_at, ab.refund_amount,
       ab.guest_name <|>
         (db.profiles.find? (fun p => ab.user_id == some p.user_id)).map
           Profile.full_name⟩)

/-- One atomic transition of the booking core: any of the mutating operations,
run with arbitrary arguments at an arbitrary time.  The per-show advisory lock
(and the single-statement transactions) justify treating each call as one
atomic step. -/
inductive Step : DB → DB → Prop where
  | cleanup {db : DB} (now : ℚ) :
      Step db (cleanup_expired_reservations db now)
  | reserve {db db' : DB} {r : ReserveResult} {show_id : Nat}
      {seat_ids : List Nat} {user_id : Option Nat} {now : ℚ}
      (h : reserve_seats db show_id seat_ids user_id now = some (r, db')) :
      Step db db'
  | completeBooking {db db' : DB} {res : Nat × List Nat} {show_id : Nat}
      {seat_ids : List Nat} {user_id : Option Nat} {total : ℚ} {new_id : Nat}
      {new_ref : List Nat}
      (h : complete_booking db show_id seat_ids user_id total new_id new_ref =
        some (res, db')) :
      Step db db'
  | cancelBooking {db : DB} (booking_id : Nat) (user_id : Option Nat) (now : ℚ) :
      Step db (cancel_booking db booking_id user_id now).2
  | completeApp {db db' : DB} {res : Nat × List Nat} {auth_uid : Option Nat}
      {tmdb title : String} {poster : Option String} {theater : String}
      {loc : Option String} {screen : String} {d t : Int} {ss : List String}
      {amt : ℚ} {new_id : Nat} {new_ref : List Nat} {now : ℚ}
      (h : complete_app_booking db auth_uid tmdb title poster theater loc
        screen d t ss amt new_id new_ref now = .ok (res, db')) :
      Step db db'
  | completeGuest {db db' : DB} {res : Nat × List Nat}
      {tmdb title : String} {poster : Option String} {theater : String}
      {loc : Option String} {screen : String} {d t : Int} {ss : List String}
      {amt : ℚ} {gn ge gp : Option String} {new_id : Nat} {new_ref : List Nat}
      {now : ℚ}
      (h : complete_guest_booking db tmdb title poster theater loc screen d t
        ss amt gn ge gp new_id new_ref now = .ok (res, db')) :
      Step db db'
  | cancelApp {db : DB} (booking_id : Nat) (user_id : Option Nat) (now : ℚ) :
      Step db (cancel_app_booking db booking_id user_id now).2

/-- The empty initial state: no bookings, line items, holds or app bookings
(the catalog tables are arbitrary). -/
def DB.isInit (db : DB) : Prop :=
  db.bookings = [] ∧ db.booking_seats = [] ∧
    db.seat_reservations = [] ∧ db.app_bookings = []

/-- States reachable from an initial empty state by the booking operations. -/
def Reachable (db : DB) : Prop :=
  ∃ db0 : DB, db0.isInit ∧ Relation.ReflTransGen Step db0 db

/-- Two `app_bookings` rows are for the same showing. -/
def sameAppShow (b1 b2 : AppBooking) : Prop :=
  b1.tmdb_movie_id = b2.tmdb_movie_id ∧ b1.theater_name = b2.theater_name ∧
    b1.show_date = b2.show_date ∧ b1.show_time = b2.show_time

/-- The no-double-sale relation on `app_bookings` rows: if both are
non-cancelled bookings of the same showing, their seat sets are disjoint. -/
def appDisjoint (b1 b2 : AppBooking) : Prop :=
  sameAppShow b1 b2 → b1.status ≠ "cancelled" → b2.status ≠ "cancelled" →
    ∀ s ∈ b1.seats, s ∉ b2.seats

/-- The `UNIQUE (show_id, seat_id)` relation on `booking_seats` rows. -/
def bsUnique (r1 r2 : BookingSeat) : Prop :=
  ¬(r1.show_id = r2.show_id ∧ r1.seat_id = r2.seat_id)

/-- The seat-disjointness invariant maintained by the booking operations. -/
def Inv (db : DB) : Prop :=
  db.app_bookings.Pairwise appDisjoint ∧ db.booking_seats.Pairwise bsUnique

/-- The state left behind by a failed `reserve_seats` call (and passed through
by a successful one before its insert): the original state with the expired
holds swept and the caller's own holds for the show deleted. -/
def reserveFailState (db : DB) (show_id : Nat) (c : Option Nat) (now : ℚ) : DB :=
  { db with seat_reservations :=
      (List.filter (fun r => !(r.show_id == show_id && sqlEqU r.user_id c))
        (List.filter (fun r => !decide (r.expires_at < now))
          db.seat_reservations)) }

/-- The state left behind by a successful `reserve_seats` call: the swept
state plus one fresh hold per requested seat, expiring in 10 minutes. -/
def reserveOkState (db : DB) (show_id : Nat) (seat_ids : List Nat)
    (c : Option Nat) (now : ℚ) : DB :=
  { db with seat_reservations :=
      (reserveFailState db show_id c now).seat_reservations ++
        seat_ids.map (fun s => ⟨show_id, s, c, now, now + 600⟩) }

/-! ### Concrete states used by the witnesses and counterexamples -/

def c6show : ShowRow := ⟨1, 100, 100000⟩

def c6b : Booking := ⟨1, some 2, 1, [65], 100, "cancelled", some 0, 0⟩

def c6ab : AppBooking :=
  ⟨9, some 2, "m", "t", none, "th", none, "s", 1, 2, ["A1"], 100, [66],
   "cancelled", some 0, 50, 0, 0, false, none, none, none⟩

def c6db : DB := ⟨[c6show], [], [], [c6b], [], [], [c6ab]⟩

def w9db : DB :=
  ⟨[], [], [], [], [],
   [⟨1, 6, some 2, 0, 500⟩, ⟨1, 5, some 3, 0, 500⟩, ⟨1, 7, some 4, 0, 50⟩], []⟩

def w9post : DB := ⟨[], [], [], [], [], [⟨1, 5, some 3, 0, 500⟩], []⟩

def c10guest : AppBooking :=
  ⟨5, none, "m", "t", none, "th", none, "s", 1, 2, ["A1"], 100, [65],
   "confirmed", none, 0, 0, 0, true, some "G", some "g@example.com", none⟩

def c10db : DB := ⟨[], [], [], [], [], [], [c10guest]⟩

/-- C2 scenario: user 7 holds seat 10 of show 1 with an active (non-expired)
hold. -/
def c2hold : SeatReservation := ⟨1, 10, some 7, 0, 600⟩

def c2db : DB := ⟨[⟨1, 100, 100000⟩], [⟨10, 1⟩], [], [], [], [c2hold], []⟩

/-- The state `complete_booking` produces when user 8 finalizes seat 10 of
show 1 despite user 7's active hold. -/
def c2post : DB :=
  ⟨[⟨1, 100, 100000⟩], [⟨10, 1⟩], [],
   [⟨99, some 8, 1, [66], 100, "confirmed", none, 0⟩],
   [⟨99, 10, 1, 100 * 1⟩], [c2hold], []⟩

def c3db : DB := ⟨[], [], [], [], [⟨50, 5, 1, 100⟩], [], []⟩

def c4db : DB :=
  ⟨[], [], [], [], [],
   [⟨1, 5, some 2, 0, 700⟩, ⟨1, 6, some 2, 0, 700⟩, ⟨1, 5, some 3, 0, 40⟩], []⟩

def c5hold : SeatReservation := ⟨1, 5, some 2, 0, 300⟩

def c5db : DB := ⟨[], [], [], [], [], [c5hold], []⟩

def c1db0 : DB := ⟨[], [], [], [], [], [], []⟩

def c1b1 : AppBooking :=
  ⟨1, some 7, "m", "t", none, "th", none, "s", 1, 2, ["A1", "A2"], 100, [65],
   "confirmed", none, 0, 0, 0, false, none, none, none⟩

def c1b2 : AppBooking :=
  ⟨2, some 8, "m", "t", none, "th", none, "s", 1, 2, ["A3"], 50, [66],
   "confirmed", none, 0, 0, 0, false, none, none, none⟩

def c1db1 : DB := ⟨[], [], [], [], [], [], [c1b1]⟩

def c1db2 : DB := ⟨[], [], [], [], [], [], [c1b1, c1b2]⟩

/-! ### Helper lemmas -/

theorem sqlEqU_none_left (c : Option Nat) : sqlEqU none c = false := by
  cases c <;> rfl

theorem sqlEqU_some_right {x : Option Nat} {u : Nat} :
    sqlEqU x (some u) = true ↔ x = some u := by
  cases x with
  | none => simp [sqlEqU]
  | some a => simp [sqlEqU]

theorem upperChar_lowerChar (c : Nat) :
    upperChar (lowerChar c) = upperChar (upperChar c) := by
  unfold upperChar lowerChar
  split_ifs <;> omega

theorem upperChar_upperChar (c : Nat) : upperChar (upperChar c) = upperChar c := by
  unfold upperChar
  split_ifs <;> omega

theorem upperChar_of_lt (c : Nat) (h : c < 97) : upperChar c = c := by
  unfold upperChar
  rw [if_neg]
  omega

theorem sqlUpper_sqlLower (s : List Nat) :
    sqlUpper (sqlLower s) = sqlUpper (sqlUpper s) := by
  induction s with
  | nil => rfl
  | cons a l ih =>
      simp only [sqlUpper, sqlLower, List.map_cons] at ih ⊢
      exact congrArg₂ List.cons (upperChar_lowerChar a) ih

/-! ### C7: the time-window refund policy -/

/-- C7: under the time-window refund policy, the refund is the full
`total_amount` exactly when `hours_until_showing >= 24` (inclusive boundary)
and `0` when `hours_until_showing < 24`, for every rational input including
zero and negative hours; in particular `computeRefund(1000, 24) = 1000` and
`computeRefund(1000, 23.999) = 0`. -/
theorem C7_refund_time_window :
    (∀ total hours : ℚ,
      (24 ≤ hours → timeWindowRefund total hours = total) ∧
      (hours < 24 → timeWindowRefund total hours = 0)) ∧
    timeWindowRefund 1000 24 = 1000 ∧
    timeWindowRefund 1000 (23999 / 1000) = 0 := by
  refine ⟨fun total hours =>
    ⟨fun h => if_pos h, fun h => if_neg (not_le.mpr h)⟩, ?_, ?_⟩
  · simp [timeWindowRefund]
  · rw [timeWindowRefund, if_neg]
    norm_num

/-- Witness for C7 at the boundary inputs of the claim. -/
theorem C7_refund_time_window_witness :
    timeWindowRefund 1000 24 = 1000 ∧ timeWindowRefund 1000 (23999 / 1000) = 0 :=
  ⟨(C7_refund_time_window.1 1000 24).1 (by norm_num),
   (C7_refund_time_window.1 1000 (23999 / 1000)).2 (by norm_num)⟩

/-! ### C8: reference codes are uppercase and lookup is case-insensitive -/

/-- C8: booking references are generated uppercase (the generated code is
fixed by `upper`, given that its date part is digits), and
`lookup_booking_by_reference` normalises its argument with `upper`, so looking
up the lowercased form of any code returns the same booking views as looking
up the uppercased form. -/
theorem C8_lookup_case_insensitive :
    (∀ datePart rand : List Nat, (∀ c ∈ datePart, 48 ≤ c ∧ c ≤ 57) →
      sqlUpper (generate_booking_reference datePart rand) =
        generate_booking_reference datePart rand) ∧
    ∀ (db : DB) (code : List Nat),
      lookup_booking_by_reference db (sqlLower code) =
        lookup_booking_by_reference db (sqlUpper code) := by
  constructor
  · intro datePart rand hdigits
    have h1 : List.map upperChar datePart = datePart := by
      calc List.map upperChar datePart = List.map id datePart :=
            List.map_congr_left fun a ha =>
              upperChar_of_lt a (by have := hdigits a ha; omega)
        _ = datePart := List.map_id _
    have h3 : List.map upperChar (List.map upperChar (rand.take 6)) =
        List.map upperChar (rand.take 6) := by
      rw [List.map_map]
      exact List.map_congr_left fun a _ => upperChar_upperChar a
    simp only [generate_booking_reference, sqlUpper, List.map_cons,
      List.map_nil, List.map_append, h1, h3,
      upperChar_of_lt 66 (by norm_num), upperChar_of_lt 75 (by norm_num),
      upperChar_of_lt 45 (by norm_num)]
  · intro db code
    unfold lookup_booking_by_reference
    rw [sqlUpper_sqlLower]

/-- Witness for C8 at concrete inputs. -/
theorem C8_lookup_case_insensitive_witness :
    sqlUpper (generate_booking_reference [50, 48] [97, 98, 99]) =
      generate_booking_reference [50, 48] [97, 98, 99] :=
  C8_lookup_case_insensitive.1 [50, 48] [97, 98, 99] (by decide)

/-! ### Behaviour of reserve_seats (shared by C3, C4, C5) -/

/-- If some requested seat is booked, or actively held by a row the caller's
own-hold deletion does not remove, `reserve_seats` fails and leaves the swept
state. -/
theorem reserve_seats_fails_of_taken (db : DB) (show_id : Nat)
    (seat_ids : List Nat) (c : Option Nat) (now : ℚ)
    (htaken : ∃ s ∈ seat_ids,
      (∃ bs ∈ db.booking_seats, bs.show_id = show_id ∧ bs.seat_id = s) ∨
      (∃ r ∈ db.seat_reservations, r.show_id = show_id ∧ r.seat_id = s ∧
        now < r.expires_at ∧ sqlEqU r.user_id c = false)) :
    reserve_seats db show_id seat_ids c now =
      some (⟨false, "Some seats are no longer available"⟩,
        reserveFailState db show_id c now) := by
  unfold reserveFailState
  simp only [reserve_seats, cleanup_expired_reservations]
  split_ifs with h1 h2
  · rfl
  all_goals
    exfalso
    apply h1
    obtain ⟨s, hs, hcase⟩ := htaken
    rw [List.any_eq_true]
    refine ⟨s, hs, ?_⟩
    rw [Bool.or_eq_true]
    rcases hcase with ⟨bs, hbs, e1, e2⟩ | ⟨r, hrm, e1, e2, e3, e4⟩
    · left
      rw [List.any_eq_true]
      exact ⟨bs, hbs, by simp [e1, e2]⟩
    · right
      rw [List.any_eq_true]
      refine ⟨r, List.mem_filter.mpr ⟨List.mem_filter.mpr ⟨hrm, ?_⟩, ?_⟩, ?_⟩
      · simp [not_lt.mpr e3.le]
      · simp [e4]
      · simp [e1, e2, e3]

/-- If no requested seat is booked, and every hold on a requested seat that
the caller's own-hold deletion does not remove has already expired strictly,
then `reserve_seats` succeeds (for a duplicate-free request) and installs the
caller's fresh holds. -/
theorem reserve_seats_succeeds_of_free (db : DB) (show_id : Nat)
    (seat_ids : List Nat) (c : Option Nat) (now : ℚ)
    (hnodup : seat_ids.Nodup)
    (hnotbooked : ∀ s ∈ seat_ids, ∀ bs ∈ db.booking_seats,
      ¬(bs.show_id = show_id ∧ bs.seat_id = s))
    (hfree : ∀ s ∈ seat_ids, ∀ r ∈ db.seat_reservations, r.show_id = show_id →
      r.seat_id = s → sqlEqU r.user_id c = false → r.expires_at < now) :
    reserve_seats db show_id seat_ids c now =
      some (⟨true, "Seats reserved successfully"⟩,
        reserveOkState db show_id seat_ids c now) := by
  unfold reserveOkState reserveFailState
  simp only [reserve_seats, cleanup_expired_reservations]
  split_ifs with h1 h2
  · exfalso
    rw [List.any_eq_true] at h1
    obtain ⟨s, hs, hor⟩ := h1
    rw [Bool.or_eq_true] at hor
    rcases hor with hbk | hheld
    · rw [List.any_eq_true] at hbk
      obtain ⟨bs, hbs, hp⟩ := hbk
      simp only [Bool.and_eq_true, beq_iff_eq] at hp
      exact hnotbooked s hs bs hbs ⟨hp.1, hp.2⟩
    · rw [List.any_eq_true] at hheld
      obtain ⟨r, hrm, hp⟩ := hheld
      obtain ⟨hrm1, hkeep⟩ := List.mem_filter.mp hrm
      obtain ⟨hrm0, hswept⟩ := List.mem_filter.mp hrm1
      simp only [Bool.and_eq_true, beq_iff_eq, decide_eq_true_eq] at hp
      obtain ⟨⟨e1, e2⟩, e3⟩ := hp
      rcases hval : sqlEqU r.user_id c with _ | _
      · have := hfree s hs r hrm0 e1 e2 hval
        rw [Bool.not_eq_true', decide_eq_false_iff_not] at hswept
        exact hswept this
      · rw [Bool.not_eq_true'] at hkeep
        rw [e1, hval] at hkeep
        simp at hkeep
  · exfalso
    unfold srInsertConflict at h2
    rw [Bool.or_eq_true] at h2
    rcases h2 with hdup | hhit
    · rw [Bool.not_eq_true', decide_eq_false_iff_not] at hdup
      exact hdup hnodup
    · rw [List.any_eq_true] at hhit
      obtain ⟨s, hs, hp⟩ := hhit
      rw [List.any_eq_true] at hp
      obtain ⟨r, hrm, hpr⟩ := hp
      obtain ⟨hrm1, hkeep⟩ := List.mem_filter.mp hrm
      obtain ⟨hrm0, hswept⟩ := List.mem_filter.mp hrm1
      simp only [Bool.and_eq_true, beq_iff_eq] at hpr
      obtain ⟨e1, e2⟩ := hpr
      rcases hval : sqlEqU r.user_id c with _ | _
      · have := hfree s hs r hrm0 e1 e2 hval
        rw [Bool.not_eq_true', decide_eq_false_iff_not] at hswept
        exact hswept this
      · rw [Bool.not_eq_true'] at hkeep
        rw [e1, hval] at hkeep
        simp at hkeep
  · rfl

/-! ### Invariant preservation for C1 -/

theorem appDisjoint_symm : Symmetric appDisjoint := by
  intro a b hab hsame hbnc hanc s hsb hsa
  exact hab ⟨hsame.1.symm, hsame.2.1.symm, hsame.2.2.1.symm, hsame.2.2.2.symm⟩
    hanc hbnc s hsa hsb

theorem bsUnique_symm : Symmetric bsUnique := by
  intro a b hab hcon
  exact hab ⟨hcon.1.symm, hcon.2.symm⟩

theorem pairwise_of_bsHasDup_false {l : List BookingSeat}
    (h : bsHasDup l = false) : l.Pairwise bsUnique := by
  induction l with
  | nil => exact List.Pairwise.nil
  | cons r l ih =>
      unfold bsHasDup at h
      rw [Bool.or_eq_false_iff] at h
      refine List.Pairwise.cons ?_ (ih h.2)
      intro e he hcon
      have hany : l.any
          (fun x => x.show_id == r.show_id && x.seat_id == r.seat_id) = true := by
        rw [List.any_eq_true]
        exact ⟨e, he, by simp [hcon.1, hcon.2]⟩
      rw [h.1] at hany
      exact Bool.noConfusion hany

theorem bsInv_append {existing newRows : List BookingSeat}
    (hInv : existing.Pairwise bsUnique)
    (hok : bsInsertConflict existing newRows = false) :
    (existing ++ newRows).Pairwise bsUnique := by
  unfold bsInsertConflict at hok
  rw [Bool.or_eq_false_iff] at hok
  rw [List.pairwise_append]
  refine ⟨hInv, pairwise_of_bsHasDup_false hok.2, ?_⟩
  intro a ha b hb hcon
  have hany : newRows.any (fun x =>
      existing.any (fun e => e.show_id == x.show_id && e.seat_id == x.seat_id)) =
        true := by
    rw [List.any_eq_true]
    refine ⟨b, hb, ?_⟩
    rw [List.any_eq_true]
    exact ⟨a, ha, by simp [hcon.1, hcon.2]⟩
  rw [hok.1] at hany
  exact Bool.noConfusion hany

theorem appInv_append {l : List AppBooking} {nb : AppBooking} {tm th : String}
    {d t : Int} {ss : List String}
    (hInv : l.Pairwise appDisjoint)
    (hconf : appConflict l tm th d t ss = false)
    (e1 : nb.tmdb_movie_id = tm) (e2 : nb.theater_name = th)
    (e3 : nb.show_date = d) (e4 : nb.show_time = t) (e5 : nb.seats = ss) :
    (l ++ [nb]).Pairwise appDisjoint := by
  rw [List.pairwise_append]
  refine ⟨hInv, List.pairwise_singleton _ _, ?_⟩
  intro a ha b hb
  rw [List.mem_singleton] at hb
  subst hb
  intro hsame hanc hbnc s hsa hsb
  have hany : appConflict l tm th d t ss = true := by
    unfold appConflict
    rw [List.any_eq_true]
    refine ⟨a, ha, ?_⟩
    simp only [Bool.and_eq_true, beq_iff_eq, bne_iff_ne, List.any_eq_true,
      decide_eq_true_eq]
    refine ⟨⟨⟨⟨⟨?_, ?_⟩, ?_⟩, ?_⟩, hanc⟩, s, hsa, ?_⟩
    · exact hsame.1.trans e1
    · exact hsame.2.1.trans e2
    · exact hsame.2.2.1.trans e3
    · exact hsame.2.2.2.trans e4
    · rw [← e5]
      exact hsb
  rw [hconf] at hany
  exact Bool.noConfusion hany

theorem reserve_seats_frame {db db' : DB} {r : ReserveResult} {show_id : Nat}
    {seat_ids : List Nat} {c : Option Nat} {now : ℚ}
    (h : reserve_seats db show_id seat_ids c now = some (r, db')) :
    db'.bookings = db.bookings ∧ db'.booking_seats = db.booking_seats ∧
      db'.app_bookings = db.app_bookings := by
  simp only [reserve_seats, cleanup_expired_reservations] at h
  split_ifs at h
  · simp only [Option.some.injEq, Prod.mk.injEq] at h
    rw [← h.2]
    exact ⟨rfl, rfl, rfl⟩
  · simp only [Option.some.injEq, Prod.mk.injEq] at h
    rw [← h.2]
    exact ⟨rfl, rfl, rfl⟩

theorem complete_booking_spec {db db' : DB} {res : Nat × List Nat}
    {show_id : Nat} {seat_ids : List Nat} {c : Option Nat} {amt : ℚ}
    {new_id : Nat} {new_ref : List Nat}
    (h : complete_booking db show_id seat_ids c amt new_id new_ref =
      some (res, db')) :
    db'.app_bookings = db.app_bookings ∧
      ∃ newSeats : List BookingSeat,
        bsInsertConflict db.booking_seats newSeats = false ∧
        db'.booking_seats = db.booking_seats ++ newSeats := by
  unfold complete_booking at h
  split at h
  · exact Option.noConfusion h
  · split_ifs at h with h1
    simp only [] at h
    split_ifs at h with h2
    simp only [Option.some.injEq, Prod.mk.injEq] at h
    rw [← h.2]
    refine ⟨rfl, _, ?_, rfl⟩
    rw [Bool.not_eq_true] at h2
    exact h2

theorem complete_app_booking_spec {db db' : DB} {res : Nat × List Nat}
    {uid : Option Nat} {tmdb title : String} {poster : Option String}
    {theater : String} {loc : Option String} {screen : String} {d t : Int}
    {ss : List String} {amt : ℚ} {new_id : Nat} {new_ref : List Nat} {now : ℚ}
    (h : complete_app_booking db uid tmdb title poster theater loc screen d t
      ss amt new_id new_ref now = .ok (res, db')) :
    db'.bookings = db.bookings ∧ db'.booking_seats = db.booking_seats ∧
      appConflict db.app_bookings tmdb theater d t ss = false ∧
      ∃ nb : AppBooking, db'.app_bookings = db.app_bookings ++ [nb] ∧
        nb.tmdb_movie_id = tmdb ∧ nb.theater_name = theater ∧
        nb.show_date = d ∧ nb.show_time = t ∧ nb.seats = ss := by
  unfold complete_app_booking at h
  rcases uid with _ | v
  · exact Except.noConfusion h
  · split_ifs at h with h1 h2 h3
    simp only [Except.ok.injEq, Prod.mk.injEq] at h
    rw [← h.2]
    refine ⟨rfl, rfl, ?_, _, rfl, rfl, rfl, rfl, rfl, rfl⟩
    rw [Bool.not_eq_true] at h2
    exact h2

theorem complete_guest_booking_spec {db db' : DB} {res : Nat × List Nat}
    {tmdb title : String} {poster : Option String} {theater : String}
    {loc : Option String} {screen : String} {d t : Int} {ss : List String}
    {amt : ℚ} {gn ge gp : Option String} {new_id : Nat} {new_ref : List Nat}
    {now : ℚ}
    (h : complete_guest_booking db tmdb title poster theater loc screen d t
      ss amt gn ge gp new_id new_ref now = .ok (res, db')) :
    db'.bookings = db.bookings ∧ db'.booking_seats = db.booking_seats ∧
      appConflict db.app_bookings tmdb theater d t ss = false ∧
      ∃ nb : AppBooking, db'.app_bookings = db.app_bookings ++ [nb] ∧
        nb.tmdb_movie_id = tmdb ∧ nb.theater_name = theater ∧
        nb.show_date = d ∧ nb.show_time = t ∧ nb.seats = ss := by
  unfold complete_guest_booking at h
  split_ifs at h with h1 h2 h3 h4 h5
  simp only [Except.ok.injEq, Prod.mk.injEq] at h
  rw [← h.2]
  refine ⟨rfl, rfl, ?_, _, rfl, rfl, rfl, rfl, rfl, rfl⟩
  rw [Bool.not_eq_true] at h4
  exact h4

theorem cancelUpd_eq_self {x : AppBooking} {bid : Nat} {refund now : ℚ}
    (h : (if x.id == bid then
        { x with status := "cancelled", cancelled_at := some now,
                 refund_amount := refund, updated_at := now }
      else x).status ≠ "cancelled") :
    (if x.id == bid then
        { x with status := "cancelled", cancelled_at := some now,
                 refund_amount := refund, updated_at := now }
      else x) = x := by
  split_ifs with hx
  · rw [if_pos hx] at h
    simp at h
  · rfl

theorem cancel_booking_inv (db : DB) (bid : Nat) (c : Option Nat) (now : ℚ)
    (hInv : Inv db) : Inv (cancel_booking db bid c now).2 := by
  unfold cancel_booking
  split
  · exact hInv
  · split_ifs with h1
    · exact hInv
    · split
      · exact hInv
      · exact ⟨hInv.1,
          List.Pairwise.sublist (List.filter_sublist _) hInv.2⟩

theorem cancel_app_inv (db : DB) (bid : Nat) (c : Option Nat) (now : ℚ)
    (hInv : Inv db) : Inv (cancel_app_booking db bid c now).2 := by
  unfold cancel_app_booking
  split
  · exact hInv
  · split_ifs with h1
    · exact hInv
    · refine ⟨?_, hInv.2⟩
      rw [List.pairwise_map]
      refine hInv.1.imp ?_
      intro a b' hab hsame hanc hbnc
      have ea := cancelUpd_eq_self hanc
      have eb := cancelUpd_eq_self hbnc
      rw [ea] at hsame hanc
      rw [eb] at hsame hbnc
      rw [ea, eb]
      exact hab hsame hanc hbnc

theorem step_inv {db db' : DB} (h : Step db db') (hInv : Inv db) :
    Inv db' := by
  cases h with
  | cleanup now => exact hInv
  | reserve h =>
      obtain ⟨h1, h2, h3⟩ := reserve_seats_frame h
      exact ⟨by rw [h3]; exact hInv.1, by rw [h2]; exact hInv.2⟩
  | completeBooking h =>
      obtain ⟨happ, newSeats, hok, hbs⟩ := complete_booking_spec h
      exact ⟨by rw [happ]; exact hInv.1,
        by rw [hbs]; exact bsInv_append hInv.2 hok⟩
  | cancelBooking bid c now => exact cancel_booking_inv db bid c now hInv
  | completeApp h =>
      obtain ⟨hb, hbs, hconf, nb, happ, e1, e2, e3, e4, e5⟩ :=
        complete_app_booking_spec h
      exact ⟨by rw [happ]; exact appInv_append hInv.1 hconf e1 e2 e3 e4 e5,
        by rw [hbs]; exact hInv.2⟩
  | completeGuest h =>
      obtain ⟨hb, hbs, hconf, nb, happ, e1, e2, e3, e4, e5⟩ :=
        complete_guest_booking_spec h
      exact ⟨by rw [happ]; exact appInv_append hInv.1 hconf e1 e2 e3 e4 e5,
        by rw [hbs]; exact hInv.2⟩
  | cancelApp bid c now => exact cancel_app_inv db bid c now hInv

theorem reachable_inv {db : DB} (h : Reachable db) : Inv db := by
  obtain ⟨db0, hinit, hsteps⟩ := h
  have h0 : Inv db0 := by
    obtain ⟨e1, e2, e3, e4⟩ := hinit
    exact ⟨by rw [e4]; exact List.Pairwise.nil, by rw [e2]; exact List.Pairwise.nil⟩
  induction hsteps with
  | refl => exact h0
  | tail hsteps hstep ih => exact step_inv hstep ih

/-! ### C1: no double-sale invariant -/

/-- C1: in every state reachable from an initial empty state by the booking
operations, the seats of distinct non-cancelled bookings of the same showing
are pairwise disjoint — both for `app_bookings` (whose finalize operations
check conflicts under the per-show advisory lock) and for `bookings` (whose
seats live in `booking_seats`, protected by `UNIQUE (show_id, seat_id)`). -/
theorem C1_no_double_sale (db : DB) (h : Reachable db) :
    (∀ b1 ∈ db.app_bookings, ∀ b2 ∈ db.app_bookings,
      b1.id ≠ b2.id → sameAppShow b1 b2 →
      b1.status ≠ "cancelled" → b2.status ≠ "cancelled" →
      ∀ s ∈ b1.seats, s ∉ b2.seats) ∧
    (∀ b1 ∈ db.bookings, ∀ b2 ∈ db.bookings, b1.id ≠ b2.id →
      b1.status ≠ "cancelled" → b2.status ≠ "cancelled" →
      ∀ r1 ∈ db.booking_seats, ∀ r2 ∈ db.booking_seats,
        r1.booking_id = b1.id → r2.booking_id = b2.id →
        r1.show_id = r2.show_id → r1.seat_id ≠ r2.seat_id) := by
  have hInv := reachable_inv h
  constructor
  · intro b1 h1 b2 h2 hid hsame hnc1 hnc2
    have hne : b1 ≠ b2 := fun he => hid (congrArg AppBooking.id he)
    exact List.Pairwise.forall appDisjoint_symm hInv.1 h1 h2 hne hsame hnc1 hnc2
  · intro b1 h1 b2 h2 hid hnc1 hnc2 r1 hr1 r2 hr2 e1 e2 eshow heq
    have hner : r1 ≠ r2 := fun he => hid (by rw [← e1, ← e2, he])
    exact List.Pairwise.forall bsUnique_symm hInv.2 hr1 hr2 hner ⟨eshow, heq⟩

theorem c1db2_reachable : Reachable c1db2 := by
  refine ⟨c1db0, ⟨rfl, rfl, rfl, rfl⟩, ?_⟩
  have s1 : Step c1db0 c1db1 :=
    Step.completeApp (show complete_app_booking c1db0 (some 7) "m" "t"
      none "th" none "s" 1 2 ["A1", "A2"] 100 1 [65] 0 = .ok ((1, [65]), c1db1)
      from rfl)
  have s2 : Step c1db1 c1db2 :=
    Step.completeApp (show complete_app_booking c1db1 (some 8) "m" "t"
      none "th" none "s" 1 2 ["A3"] 50 2 [66] 0 = .ok ((2, [66]), c1db2)
      from rfl)
  exact Relation.ReflTransGen.tail
    (Relation.ReflTransGen.tail Relation.ReflTransGen.refl s1) s2

/-- Witness for C1 on a reachable state holding two confirmed bookings of the
same showing: booking 1 holds seat "A1" and booking 2 does not. -/
theorem C1_no_double_sale_witness :
    ("A1" ∈ c1b1.seats) ∧ "A1" ∉ c1b2.seats :=
  ⟨by decide,
   (C1_no_double_sale c1db2 c1db2_reachable).1 c1b1 (by decide) c1b2
     (by decide) (by decide) ⟨rfl, rfl, rfl, rfl⟩ (by decide) (by decide)
     "A1" (by decide)⟩

/-! ### C2: complete_booking does not consult holds (code bug) -/

/-- C2 (failing input): seat 10 of show 1 is covered by user 7's non-expired
hold (it expires at 600, and the call is made at time 300 < 600), yet
`complete_booking` invoked on behalf of user 8 for that seat does not fail
with `seats_unavailable`: it creates a confirmed booking with a line item for
the held seat and leaves user 7's hold in place.  `complete_booking` never
reads `seat_reservations` before inserting. -/
theorem C2_finalize_ignores_active_hold :
    (300 : ℚ) < c2hold.expires_at ∧ c2hold.user_id = some 7 ∧
    complete_booking c2db 1 [10] (some 8) 100 99 [66] =
      some ((99, [66]), c2post) ∧
    c2hold ∈ c2post.seat_reservations ∧
    ((c2post.bookings.any fun b =>
        b.id == 99 && sqlEqU b.user_id (some 8) && b.status == "confirmed") =
      true) ∧
    ((c2post.booking_seats.any fun bs =>
        bs.booking_id == 99 && bs.show_id == 1 && bs.seat_id == 10) = true) := by
  refine ⟨by norm_num [c2hold], rfl, by rfl, by decide, rfl, rfl⟩

/-! ### C3: a failed acquire is all-or-nothing -/

/-- C3: if at least one requested seat is already taken — present in
`booking_seats` for the show, or covered by a non-expired hold not owned by
the caller — then `reserve_seats` fails and creates no holds: afterwards no
hold owned by the caller exists for the show (in particular on any requested
seat), and bookings, line items and app bookings are untouched. -/
theorem C3_acquire_all_or_nothing (db : DB) (show_id : Nat)
    (seat_ids : List Nat) (u : Nat) (now : ℚ)
    (htaken : ∃ s ∈ seat_ids,
      (∃ bs ∈ db.booking_seats, bs.show_id = show_id ∧ bs.seat_id = s) ∨
      (∃ r ∈ db.seat_reservations, r.show_id = show_id ∧ r.seat_id = s ∧
        now < r.expires_at ∧ r.user_id ≠ some u)) :
    reserve_seats db show_id seat_ids (some u) now =
      some (⟨false, "Some seats are no longer available"⟩,
        reserveFailState db show_id (some u) now) ∧
    (∀ r ∈ (reserveFailState db show_id (some u) now).seat_reservations,
      ¬(r.show_id = show_id ∧ r.user_id = some u)) ∧
    (reserveFailState db show_id (some u) now).bookings = db.bookings ∧
    (reserveFailState db show_id (some u) now).booking_seats =
      db.booking_seats ∧
    (reserveFailState db show_id (some u) now).app_bookings =
      db.app_bookings := by
  refine ⟨?_, ?_, rfl, rfl, rfl⟩
  · apply reserve_seats_fails_of_taken
    obtain ⟨s, hs, hcase⟩ := htaken
    refine ⟨s, hs, ?_⟩
    rcases hcase with h | ⟨r, hrm, e1, e2, e3, e4⟩
    · exact Or.inl h
    · refine Or.inr ⟨r, hrm, e1, e2, e3, ?_⟩
      cases hval : sqlEqU r.user_id (some u)
      · rfl
      · exact absurd (sqlEqU_some_right.mp hval) e4
  · intro r hr hcon
    simp only [reserveFailState] at hr
    obtain ⟨hr1, hkeep⟩ := List.mem_filter.mp hr
    rw [Bool.not_eq_true'] at hkeep
    rw [hcon.1, hcon.2] at hkeep
    simp [sqlEqU] at hkeep

/-- Witness for C3: seat 5 of show 1 is already booked, so user 2's acquire
of it fails. -/
theorem C3_acquire_all_or_nothing_witness :
    reserve_seats c3db 1 [5] (some 2) 0 =
      some (⟨false, "Some seats are no longer available"⟩,
        reserveFailState c3db 1 (some 2) 0) :=
  (C3_acquire_all_or_nothing c3db 1 [5] 2 0 (by decide)).1

/-! ### C4: re-acquiring one's own holds succeeds -/

/-- C4: a holder re-running `reserve_seats` for the same show and seats
succeeds whenever no seat is booked and every hold on those seats by any
other party has expired — the holder's own pre-existing holds (of any expiry)
are released first and never count as conflicts; fresh holds are installed. -/
theorem C4_reacquire_own_holds (db : DB) (show_id : Nat) (seat_ids : List Nat)
    (u : Nat) (now : ℚ)
    (hnodup : seat_ids.Nodup)
    (hnotbooked : ∀ s ∈ seat_ids, ∀ bs ∈ db.booking_seats,
      ¬(bs.show_id = show_id ∧ bs.seat_id = s))
    (hothers : ∀ s ∈ seat_ids, ∀ r ∈ db.seat_reservations,
      r.show_id = show_id → r.seat_id = s → r.user_id ≠ some u →
      r.expires_at < now) :
    reserve_seats db show_id seat_ids (some u) now =
      some (⟨true, "Seats reserved successfully"⟩,
        reserveOkState db show_id seat_ids (some u) now) ∧
    ∀ s ∈ seat_ids,
      (⟨show_id, s, some u, now, now + 600⟩ : SeatReservation) ∈
        (reserveOkState db show_id seat_ids (some u) now).seat_reservations := by
  refine ⟨reserve_seats_succeeds_of_free db show_id seat_ids (some u) now
    hnodup hnotbooked ?_, ?_⟩
  · intro s hs r hrm e1 e2 hval
    apply hothers s hs r hrm e1 e2
    intro hru
    rw [hru] at hval
    simp [sqlEqU] at hval
  · intro s hs
    simp only [reserveOkState]
    exact List.mem_append_right _ (List.mem_map.mpr ⟨s, hs, rfl⟩)

/-- Witness for C4: user 2 re-acquires seats 5 and 6 of show 1, which they
already hold, while user 3's hold on seat 5 has expired. -/
theorem C4_reacquire_own_holds_witness :
    reserve_seats c4db 1 [5, 6] (some 2) 100 =
      some (⟨true, "Seats reserved successfully"⟩,
        reserveOkState c4db 1 [5, 6] (some 2) 100) :=
  (C4_reacquire_own_holds c4db 1 [5, 6] 2 100 (by decide) (by decide)
    (by decide)).1

/-! ### C5: expired holds are not authoritative -/

/-- C5: holds are only consulted through `expires_at > now`.  If holder A has
the only hold on seat X of a show (expiring at `e`) and X is not booked, then
another holder B's acquire of X fails while the hold is live (`now1 < e`) and
succeeds once it has expired (`e < now2`), installing B's fresh hold. -/
theorem C5_holds_expire (db : DB) (show_id X A B : Nat) (e now1 now2 : ℚ)
    (hAB : A ≠ B)
    (hhold : ∃ r ∈ db.seat_reservations,
      r.show_id = show_id ∧ r.seat_id = X ∧ r.user_id = some A ∧
        r.expires_at = e)
    (hnotbooked : ∀ bs ∈ db.booking_seats,
      ¬(bs.show_id = show_id ∧ bs.seat_id = X))
    (honly : ∀ r ∈ db.seat_reservations, r.show_id = show_id →
      r.seat_id = X → r.user_id = some A ∧ r.expires_at = e) :
    (now1 < e →
      reserve_seats db show_id [X] (some B) now1 =
        some (⟨false, "Some seats are no longer available"⟩,
          reserveFailState db show_id (some B) now1)) ∧
    (e < now2 →
      reserve_seats db show_id [X] (some B) now2 =
        some (⟨true, "Seats reserved successfully"⟩,
          reserveOkState db show_id [X] (some B) now2) ∧
      (⟨show_id, X, some B, now2, now2 + 600⟩ : SeatReservation) ∈
        (reserveOkState db show_id [X] (some B) now2).seat_reservations) := by
  constructor
  · intro hlt
    apply reserve_seats_fails_of_taken
    obtain ⟨r, hrm, e1, e2, e3, e4⟩ := hhold
    refine ⟨X, List.mem_singleton.mpr rfl, Or.inr ⟨r, hrm, e1, e2, ?_, ?_⟩⟩
    · rw [e4]
      exact hlt
    · rw [e3]
      simp [sqlEqU, hAB]
  · intro hgt
    constructor
    · refine reserve_seats_succeeds_of_free db show_id [X] (some B) now2
        (by simp) ?_ ?_
      · intro s hs bs hbs
        rw [List.mem_singleton] at hs
        subst hs
        exact hnotbooked bs hbs
      · intro s hs r hrm he1 he2 hval
        rw [List.mem_singleton] at hs
        subst hs
        rw [(honly r hrm he1 he2).2]
        exact hgt
    · simp only [reserveOkState]
      exact List.mem_append_right _ (List.mem_map.mpr ⟨X, by simp, rfl⟩)

/-- Witness for C5: user 2's hold on seat 5 of show 1 expires at 300; user 3's
acquire fails at time 100 and succeeds at time 400. -/
theorem C5_holds_expire_witness :
    reserve_seats c5db 1 [5] (some 3) 100 =
      some (⟨false, "Some seats are no longer available"⟩,
        reserveFailState c5db 1 (some 3) 100) ∧
    reserve_seats c5db 1 [5] (some 3) 400 =
      some (⟨true, "Seats reserved successfully"⟩,
        reserveOkState c5db 1 [5] (some 3) 400) :=
  ⟨(C5_holds_expire c5db 1 5 2 3 300 100 400 (by decide) (by decide)
      (by decide) (by decide)).1 (by norm_num),
   ((C5_holds_expire c5db 1 5 2 3 300 100 400 (by decide) (by decide)
      (by decide) (by decide)).2 (by norm_num)).1⟩

/-! ### C6: cancelling an already-cancelled booking is rejected untouched -/

/-- C6: when the booking found by the cancellation lookup is already
cancelled, both `cancel_booking` and `cancel_app_booking` return failure with
the already-cancelled message and refund `0`, and leave the database — in
particular the booking's `status`, `cancelled_at` and `refund_amount` —
unchanged. -/
theorem C6_cancel_already_cancelled :
    ∀ (db : DB) (booking_id : Nat) (caller : Option Nat) (now : ℚ),
      (∀ b : Booking,
        db.bookings.find? (cancelBookingPred db booking_id caller) = some b →
        b.status = "cancelled" →
        cancel_booking db booking_id caller now =
          (⟨false, "Booking already cancelled", 0⟩, db)) ∧
      (∀ b : AppBooking,
        db.app_bookings.find? (cancelAppPred booking_id caller) = some b →
        b.status = "cancelled" →
        cancel_app_booking db booking_id caller now =
          (⟨false, "Booking already cancelled", 0⟩, db)) := by
  intro db booking_id caller now
  constructor
  · intro b hfind hst
    unfold cancel_booking
    rw [hfind]
    simp [hst]
  · intro b hfind hst
    unfold cancel_app_booking
    rw [hfind]
    simp [hst]

/-- Witness for C6 on a concrete state with cancelled bookings in both
tables. -/
theorem C6_cancel_already_cancelled_witness :
    cancel_booking c6db 1 (some 2) 0 =
      (⟨false, "Booking already cancelled", 0⟩, c6db) ∧
    cancel_app_booking c6db 9 (some 2) 0 =
      (⟨false, "Booking already cancelled", 0⟩, c6db) :=
  ⟨(C6_cancel_already_cancelled c6db 1 (some 2) 0).1 c6b (by decide) rfl,
   (C6_cancel_already_cancelled c6db 9 (some 2) 0).2 c6ab (by decide) rfl⟩

/-! ### C9: a failed acquire only sweeps and releases the caller's holds -/

/-- C9: when `reserve_seats` returns failure, the resulting state is exactly
the original one with the expired holds (swept at entry) and the caller's own
holds for the show removed; bookings, line items, app bookings and every other
holder's live hold are untouched. -/
theorem C9_failed_acquire_frame (db : DB) (show_id : Nat)
    (seat_ids : List Nat) (caller : Option Nat) (now : ℚ)
    (r : ReserveResult) (db' : DB)
    (h : reserve_seats db show_id seat_ids caller now = some (r, db'))
    (hfail : r.success = false) :
    db' = reserveFailState db show_id caller now := by
  unfold reserveFailState
  simp only [reserve_seats, cleanup_expired_reservations] at h
  split_ifs at h with h1 h2
  · simp only [Option.some.injEq, Prod.mk.injEq] at h
    exact h.2.symm
  · simp only [Option.some.injEq, Prod.mk.injEq] at h
    obtain ⟨hr, hdb⟩ := h
    rw [← hr] at hfail
    simp at hfail

/-- Witness for C9: user 2 re-requests seat 5 of show 1 while user 3 holds it;
the failed call leaves exactly user 3's live hold. -/
theorem C9_failed_acquire_frame_witness :
    w9post = reserveFailState w9db 1 (some 2) 100 :=
  C9_failed_acquire_frame w9db 1 [5] (some 2) 100
    ⟨false, "Some seats are no longer available"⟩ w9post (by decide) rfl

/-! ### C10: guest bookings cannot be cancelled through cancel_app_booking -/

/-- C10: `complete_guest_booking` always inserts a booking with
`user_id = NULL`, and `cancel_app_booking`'s lookup requires the booking's
`user_id` to equal the caller's, which SQL `NULL = x` never satisfies; hence a
guest booking can never be cancelled through `cancel_app_booking`: every
caller gets the not-found failure with refund `0` and an unchanged state. -/
theorem C10_guest_booking_not_cancellable :
    (∀ (db : DB) (tmdb title : String) (poster : Option String)
        (theater : String) (loc : Option String) (screen : String)
        (d t : Int) (ss : List String) (amt : ℚ) (gn ge gp : Option String)
        (new_id : Nat) (new_ref : List Nat) (now : ℚ)
        (res : Nat × List Nat) (db' : DB),
      complete_guest_booking db tmdb title poster theater loc screen d t ss
          amt gn ge gp new_id new_ref now = .ok (res, db') →
      ∃ nb : AppBooking, db'.app_bookings = db.app_bookings ++ [nb] ∧
        nb.user_id = none) ∧
    ∀ (db : DB) (booking_id : Nat) (caller : Option Nat) (now : ℚ),
      (∀ b ∈ db.app_bookings, b.id = booking_id → b.user_id = none) →
      cancel_app_booking db booking_id caller now =
        (⟨false, "Booking not found", 0⟩, db) := by
  constructor
  · intro db tmdb title poster theater loc screen d t ss amt gn ge gp new_id
      new_ref now res db' h
    unfold complete_guest_booking at h
    split_ifs at h
    simp only [Except.ok.injEq, Prod.mk.injEq] at h
    obtain ⟨hres, hdb⟩ := h
    subst hdb
    exact ⟨_, rfl, rfl⟩
  · intro db booking_id caller now hall
    have hnone :
        db.app_bookings.find? (cancelAppPred booking_id caller) = none := by
      rw [List.find?_eq_none]
      intro x hx
      simp only [cancelAppPred, Bool.and_eq_true, beq_iff_eq, not_and]
      intro hid
      rw [hall x hx hid, sqlEqU_none_left]
      simp
    unfold cancel_app_booking
    rw [hnone]

/-- Witness for C10: no caller can cancel the stored guest booking. -/
theorem C10_guest_booking_not_cancellable_witness :
    cancel_app_booking c10db 5 (some 3) 0 =
      (⟨false, "Booking not found", 0⟩, c10db) :=
  C10_guest_booking_not_cancellable.2 c10db 5 (some 3) 0 (by decide)

end ShowSparkle
